import Mathlib

/-!
Verification development for `backend/app/services/authentication.py`
(`AuthenticationService`): a credential-verification and session-token
component.  Pure functions of the service are embedded as Lean functions;
the wall clock is passed explicitly (one `Int` epoch-seconds reading per
`datetime.utcnow()` call in the source), the internal randomization of the
hashing primitive is passed explicitly as a nonce, and the database lookup
of `authenticate_user` is passed as a function parameter.

External cryptographic primitives (passlib/bcrypt, PyJWT's HMAC signing)
are modelled as ideal primitives, per the design notes: a stored bcrypt
hash records the exact input string it was derived from together with the
internal nonce, and verification compares input strings; a signed token
records its claim set, signing key and algorithm, and signature
verification compares key and algorithm.  Collision-finding and forgery
are outside the model.
-/

/-- A JSON claim value as it appears in a decoded JWT payload: a string or
a number.  Timestamps carried as `jnum` are numeric; a `jstr` in a
timestamp position models a non-numeric value (one `int()` rejects). -/
inductive JVal where
  | jstr (s : String)
  | jnum (n : Int)
deriving DecidableEq, Repr

/-- The raw claim set of a token before schema validation: each of the four
fields of the wire format `{aud, iat, exp, sub}` may be absent or have
either JSON type. -/
structure RawClaims where
  aud : Option JVal
  iat : Option JVal
  exp : Option JVal
  sub : Option JVal
deriving DecidableEq, Repr

/-- A JWT as produced by `jwt.encode` / consumed by `jwt.decode`.  A
`signed` token records the claim set, the signing key and the algorithm
(the ideal model of an unforgeable signature); `malformed` is a string
that does not parse as a JWT at all. -/
inductive Token where
  | signed (claims : RawClaims) (key : String) (alg : String)
  | malformed (raw : String)
deriving DecidableEq, Repr

/-- Modelled from the spec: the injected read-only configuration
(`app.core.config.settings`, not under `src/`) — secret key, expected
audience, signing-algorithm identifier, default token lifetime in
minutes. -/
structure Settings where
  SECRET_KEY : String
  JWT_AUDIENCE : String
  JWT_ALGORITHM : String
  ACCESS_TOKEN_EXPIRE_MINUTES : Int
deriving DecidableEq, Repr

/-- The observable fields of a `fastapi.HTTPException`. -/
structure HTTPError where
  status_code : Nat
  detail : String
  headers : List (String × String)
deriving DecidableEq, Repr

/-- The uniform 401 failure raised by `authenticate_user` on unknown email
or failed password verification (authentication.py lines 85-89). -/
def authUnsuccessful : HTTPError :=
  { status_code := 401
    detail := "Authentication was unsuccessful."
    headers := [("WWW-Authenticate", "Bearer")] }

/-- The uniform 401 failure raised by `get_email_from_token` on any
decode or schema-validation error (authentication.py lines 102-106). -/
def couldNotValidate : HTTPError :=
  { status_code := 401
    detail := "Could not validate token credentials."
    headers := [("WWW-Authenticate", "Bearer")] }

/-- Exceptions escaping passlib's `CryptContext.verify`: it raises a
`ValueError` (`UnknownHashError`) when the stored hash cannot be
identified as a hash of any configured scheme. -/
inductive PasslibError where
  | unknownHash
deriving DecidableEq, Repr

/-- A stored password hash string, as passlib's bcrypt backend reads it:
either a well-formed bcrypt hash — in the ideal-primitive model it records
the exact input string it was derived from and the internal random salt
(`nonce`) embedded by the algorithm — or a string in no recognized hash
format. -/
inductive StoredHash where
  | bcryptHash (input : String) (nonce : Nat)
  | unrecognized (raw : String)
deriving DecidableEq, Repr

/-- Modelled from the spec: `models.UserInDB` (not under `src/`) restricted
to the identity-reference fields this core reads — email, stored salt,
stored password hash. -/
structure UserInDB where
  email : String
  salt : String
  password : StoredHash
deriving DecidableEq, Repr

/-- Modelled from the spec: `models.AccessToken` (not under `src/`) — the
token wrapper returned by `authenticate_user`.  `access_token` is an
`Option` because `create_access_token_for_user` can return `None` and
Python passes that through. -/
structure AccessToken where
  access_token : Option Token
  token_type : String
deriving DecidableEq, Repr

/-- Modelled from the spec: `models.JWTPayload` (not under `src/`), the
validated claim schema of the wire format `{aud: string, iat:
numeric-seconds, exp: numeric-seconds, sub: string}`. -/
structure JWTPayload where
  aud : String
  iat : Int
  exp : Int
  sub : String
deriving DecidableEq, Repr

/-- Pydantic validation of a decoded claim dict against `JWTPayload`:
every field must be present and of the declared type, otherwise a
`ValidationError` is raised. -/
def JWTPayload.validate (c : RawClaims) : Option JWTPayload :=
  match c.aud, c.iat, c.exp, c.sub with
  | some (.jstr a), some (.jnum i), some (.jnum e), some (.jstr s) =>
      some { aud := a, iat := i, exp := e, sub := s }
  | _, _, _, _ => none

/-- The distinct error classes of PyJWT relevant here; all are subclasses
of `jwt.PyJWTError`. -/
inductive JWTError where
  | decodeError
  | invalidAlgorithm
  | signatureMismatch
  | invalidIssuedAt
  | expiredSignature
  | audienceError
deriving DecidableEq, Repr

/-- `jwt.encode(payload, key, algorithm)` in the ideal-signature model:
the token carries its claim set, key and algorithm. -/
def jwt_encode (payload : RawClaims) (key : String) (alg : String) : Token :=
  .signed payload key alg

/-- `jwt.decode(token, key, audience=aud, algorithms=algs)` as PyJWT
behaves on this service's tokens: reject unparsable tokens; reject an
algorithm outside `algs`; verify the signature (ideal model: the signing
key must equal the verification key); reject a non-numeric `iat`; reject a
non-numeric `exp`, or a numeric `exp` at or before `now`; reject a
missing, non-string or mismatching `aud` (the `audience` argument makes
the claim required).  Absent `iat`/`exp` are simply not checked by PyJWT.
The check order is immaterial to the callers, which collapse all
`PyJWTError`s into one failure. -/
def jwt_decode (token : Token) (key : String) (audience : String)
    (algs : List String) (now : Int) : Except JWTError RawClaims :=
  match token with
  | .malformed _ => .error .decodeError
  | .signed claims k alg =>
    if ¬ algs.contains alg then .error .invalidAlgorithm
    else if k ≠ key then .error .signatureMismatch
    else match claims.iat with
      | some (.jstr _) => .error .invalidIssuedAt
      | _ =>
        match claims.exp with
        | some (.jstr _) => .error .decodeError
        | some (.jnum e) =>
          if e ≤ now then .error .expiredSignature
          else match claims.aud with
            | some (.jstr a) =>
              if a ≠ audience then .error .audienceError else .ok claims
            | _ => .error .audienceError
        | none =>
          match claims.aud with
          | some (.jstr a) =>
            if a ≠ audience then .error .audienceError else .ok claims
          | _ => .error .audienceError

/-- `pwd_context.hash(secret)` (authentication.py line 15: a bcrypt
`CryptContext`): the algorithm draws a fresh internal salt (`nonce`), so
output bytes vary across calls, and derives a hash of the input.  Ideal
model: the hash records the input and nonce exactly. -/
def pwd_context_hash (secret : String) (nonce : Nat) : StoredHash :=
  .bcryptHash secret nonce

/-- `pwd_context.verify(secret, stored)`: for a recognized bcrypt hash,
the algorithm's comparison entry point checks whether `stored` was derived
from `secret` (ideal model: input-string equality, the internal nonce does
not matter); for an unrecognized hash string it raises `UnknownHashError`
(a `ValueError`), it does not return `false`. -/
def pwd_context_verify (secret : String) (stored : StoredHash) :
    Except PasslibError Bool :=
  match stored with
  | .bcryptHash input _ => .ok (secret = input)
  | .unrecognized _ => .error .unknownHash

/-- `AuthenticationService.hash_password` (lines 36-40): hash
`password + salt` with the bcrypt context. -/
def hash_password (password : String) (salt : String) (nonce : Nat) :
    StoredHash :=
  pwd_context_hash (password ++ salt) nonce

/-- `AuthenticationService.verify_password` (lines 42-46): verify
`password + salt` against the stored hash with the bcrypt context. -/
def verify_password (password : String) (salt : String)
    (hashed_password : StoredHash) : Except PasslibError Bool :=
  pwd_context_verify (password ++ salt) hashed_password

/-- `AuthenticationService.create_access_token_for_user` (lines 48-74).
`user` is `Option UserInDB`: `none` covers both a `None` argument and a
value that is not a `models.UserInDB` instance, the two cases of the guard
on line 59, which returns `None`.  `t1` and `t2` are the two successive
`datetime.utcnow()` readings on lines 64 and 65 (epoch seconds);
`timedelta(minutes=expires_in)` is `60 * expires_in` seconds.  The claim
set is `{aud: audience, iat: t1, exp: t2 + 60*expires_in, sub:
user.email}`, signed with `secret_key` and `settings.JWT_ALGORITHM`. -/
def create_access_token_for_user (settings : Settings)
    (user : Option UserInDB) (secret_key : String) (audience : String)
    (expires_in : Int) (t1 t2 : Int) : Option Token :=
  match user with
  | none => none
  | some u =>
    some (jwt_encode
      { aud := some (.jstr audience)
        iat := some (.jnum t1)
        exp := some (.jnum (t2 + 60 * expires_in))
        sub := some (.jstr u.email) }
      secret_key settings.JWT_ALGORITHM)

/-- `AuthenticationService.get_email_from_token` (lines 94-107): decode
with `settings.SECRET_KEY`, `settings.JWT_AUDIENCE` and
`settings.JWT_ALGORITHM` — the `secret_key` parameter is accepted but
never read — then validate the payload schema; any `jwt.PyJWTError` or
`ValidationError` becomes the single `couldNotValidate` 401; on success
return the `sub` claim. -/
def get_email_from_token (settings : Settings) (now : Int) (token : Token)
    (secret_key : String) : Except HTTPError String :=
  match jwt_decode token settings.SECRET_KEY settings.JWT_AUDIENCE
      [settings.JWT_ALGORITHM] now with
  | .error _ => .error couldNotValidate
  | .ok decoded =>
    match JWTPayload.validate decoded with
    | none => .error couldNotValidate
    | some payload => .ok payload.sub

/-- Result of `authenticate_user`: the access token, the raised 401
`HTTPException`, or a library exception propagating uncaught (there is no
`try` in `authenticate_user`). -/
inductive AuthResult where
  | ok (t : AccessToken)
  | failure (e : HTTPError)
  | libraryError (e : PasslibError)
deriving DecidableEq, Repr

/-- `AuthenticationService.authenticate_user` (lines 76-92): look the user
up by email (the `crud.user.get_by_email` collaborator is the `lookup`
parameter); if absent, or if `verify_password` returns false, raise the
uniform `authUnsuccessful` 401; otherwise return an `AccessToken` wrapping
`create_access_token_for_user` called with the configured defaults.  `t1
t2` are the clock readings inside token creation; `verify_password` has no
randomness and token creation draws none. -/
def authenticate_user (settings : Settings)
    (lookup : String → Option UserInDB) (email : String)
    (password : String) (t1 t2 : Int) : AuthResult :=
  match lookup email with
  | none => .failure authUnsuccessful
  | some user =>
    match verify_password password user.salt user.password with
    | .error e => .libraryError e
    | .ok false => .failure authUnsuccessful
    | .ok true =>
      .ok { access_token :=
              create_access_token_for_user settings (some user)
                settings.SECRET_KEY settings.JWT_AUDIENCE
                settings.ACCESS_TOKEN_EXPIRE_MINUTES t1 t2
            token_type := "bearer" }

/-- The token's signature is valid for this configuration: the token
parses, was signed with the configured secret key, and with the configured
(hence accepted) algorithm. -/
def token_sig_ok (settings : Settings) : Token → Prop
  | .malformed _ => False
  | .signed _ k alg => k = settings.SECRET_KEY ∧ alg = settings.JWT_ALGORITHM

/-- The token carries an audience claim that is a string different from
the configured expected audience. -/
def token_audience_mismatch (settings : Settings) : Token → Prop
  | .malformed _ => False
  | .signed claims _ _ =>
    ∃ a, claims.aud = some (.jstr a) ∧ a ≠ settings.JWT_AUDIENCE

/-- The token carries a numeric expiry claim at or before the current
time. -/
def token_expired (now : Int) : Token → Prop
  | .malformed _ => False
  | .signed claims _ _ => ∃ e, claims.exp = some (.jnum e) ∧ e ≤ now

/-- The token's claim fields fail schema validation against `JWTPayload`
(missing subject, non-numeric timestamps, wrongly-typed or missing
fields), or the token is structurally malformed. -/
def token_schema_bad : Token → Prop
  | .malformed _ => True
  | .signed claims _ _ => JWTPayload.validate claims = none

instance (settings : Settings) (t : Token) :
    Decidable (token_sig_ok settings t) := by
  cases t with
  | malformed raw => exact .isFalse (fun h => h)
  | signed claims k alg => exact instDecidableAnd

instance (settings : Settings) (t : Token) :
    Decidable (token_audience_mismatch settings t) := by
  cases t with
  | malformed raw => exact .isFalse (fun h => h)
  | signed claims k alg =>
    cases h : claims.aud with
    | none => exact .isFalse (by simp [token_audience_mismatch, h])
    | some v =>
      cases v with
      | jstr a =>
        exact decidable_of_iff (a ≠ settings.JWT_AUDIENCE)
          (by simp [token_audience_mismatch, h])
      | jnum n => exact .isFalse (by simp [token_audience_mismatch, h])

instance (now : Int) (t : Token) : Decidable (token_expired now t) := by
  cases t with
  | malformed raw => exact .isFalse (fun h => h)
  | signed claims k alg =>
    cases h : claims.exp with
    | none => exact .isFalse (by simp [token_expired, h])
    | some v =>
      cases v with
      | jstr s => exact .isFalse (by simp [token_expired, h])
      | jnum e =>
        exact decidable_of_iff (e ≤ now) (by simp [token_expired, h])

instance (t : Token) : Decidable (token_schema_bad t) := by
  cases t with
  | malformed raw => exact .isTrue trivial
  | signed claims k alg =>
    exact (inferInstance : Decidable (JWTPayload.validate claims = none))

/-! ## Concrete fixtures shared by witnesses and counterexamples -/

/-- A concrete configuration. -/
def cfg0 : Settings :=
  { SECRET_KEY := "supersecret"
    JWT_AUDIENCE := "app:auth"
    JWT_ALGORITHM := "HS256"
    ACCESS_TOKEN_EXPIRE_MINUTES := 30 }

/-- A concrete stored user record whose password is `"pw0"`. -/
def u0 : UserInDB :=
  { email := "a@example.com"
    salt := "salt0"
    password := hash_password "pw0" "salt0" 7 }

/-- A concrete storage collaborator knowing only `u0`. -/
def lookup0 (email : String) : Option UserInDB :=
  if email = "b@example.com" then some u0 else none

/-- The token `create_access_token_for_user` issues for `u0` under `cfg0`
with lifetime 1 minute at time 0. -/
def tok0 : Token :=
  Token.signed
    { aud := some (.jstr "app:auth")
      iat := some (.jnum 0)
      exp := some (.jnum 60)
      sub := some (.jstr "a@example.com") }
    "supersecret" "HS256"

/-- A token issued under `cfg0` with lifetime -1 minute at time 0: already
expired at issuance. -/
def tokExpired0 : Token :=
  Token.signed
    { aud := some (.jstr "app:auth")
      iat := some (.jnum 0)
      exp := some (.jnum (-60))
      sub := some (.jstr "a@example.com") }
    "supersecret" "HS256"

/-! ## Claims about the credential hasher -/

/-- C2: for every password `P` and salt `s` (and any internal randomness
`nonce` drawn by the bcrypt context while hashing),
`verify_password P s (hash_password P s nonce)` returns `true`, even
though the produced hash value varies with `nonce`. -/
theorem verify_of_hash_succeeds (P s : String) (nonce : Nat) :
    verify_password P s (hash_password P s nonce) = .ok true := by
  simp [verify_password, hash_password, pwd_context_hash, pwd_context_verify]

/-- C6: for every password `P`, salt `s` and password `P' ≠ P`,
`verify_password P' s (hash_password P s nonce)` returns `false`: with the
same salt, distinct passwords give distinct concatenations, and the ideal
verification primitive rejects them. -/
theorem verify_wrong_password_fails (P P' s : String) (nonce : Nat)
    (h : P' ≠ P) :
    verify_password P' s (hash_password P s nonce) = .ok false := by
  simp only [verify_password, hash_password, pwd_context_hash,
    pwd_context_verify, Except.ok.injEq, decide_eq_false_iff_not]
  intro hEq
  apply h
  have hdata := congrArg String.data hEq
  simp only [String.data_append] at hdata
  exact String.ext (List.append_cancel_right hdata)

/-- Witness for C6 at `P = "pw0"`, `P' = "other"`, `s = "salt0"`. -/
theorem verify_wrong_password_fails_witness :
    verify_password "other" "salt0" (hash_password "pw0" "salt0" 7) =
      .ok false :=
  verify_wrong_password_fails "pw0" "other" "salt0" 7 (by decide)

/-- C7 (at the failing input): `verify_password` is not total — handed a
stored hash in no recognized format, it propagates passlib's
`UnknownHashError` (`ValueError`) instead of returning `false`. -/
theorem verify_malformed_hash_raises :
    verify_password "pw" "st" (StoredHash.unrecognized "not-a-hash") =
      .error .unknownHash :=
  rfl

/-- C10: because `hash_password` and `verify_password` combine password
and salt by plain concatenation with no separator, any split `(P', s')` of
the same combined string verifies: if `P' ++ s' = P ++ s` then
`verify_password P' s' (hash_password P s nonce)` returns `true`, even
when `P' ≠ P`. -/
theorem concat_split_collision (P s P' s' : String) (nonce : Nat)
    (h : P' ++ s' = P ++ s) :
    verify_password P' s' (hash_password P s nonce) = .ok true := by
  simp [verify_password, hash_password, pwd_context_hash,
    pwd_context_verify, h]

/-- Witness for C10 at the distinct splits `("pw0s", "alt0")` and
`("pw0", "salt0")` of `"pw0salt0"`. -/
theorem concat_split_collision_witness :
    verify_password "pw0s" "alt0" (hash_password "pw0" "salt0" 7) =
      .ok true :=
  concat_split_collision "pw0" "salt0" "pw0s" "alt0" 7 (by decide)

/-! ## Claims about token issuance -/

/-- C4 counterexample: called with an absent identity, the issuance
operation does not fail loudly — it returns the null/absent result `None`
(authentication.py lines 59-60). -/
theorem issue_absent_identity_cex :
    create_access_token_for_user cfg0 none "supersecret" "app:auth" 30 0 0 =
      none :=
  rfl

/-- C4 amended: for every configuration and every absent or structurally
invalid identity reference, `create_access_token_for_user` returns the
null/absent result `None` — it raises nothing, and it emits no token (in
particular none with an empty subject). -/
theorem issue_absent_identity_returns_none (settings : Settings)
    (sk aud : String) (m t1 t2 : Int) :
    create_access_token_for_user settings none sk aud m t1 t2 = none :=
  rfl

/-- C5 counterexample: with lifetime 1 minute, first clock reading 0 and
second clock reading 1 (the source reads `datetime.utcnow()` twice, lines
64 and 65), the signed claim set has `iat = 0` but `exp = 61 ≠ 0 + 60·1`:
expiry is not exactly issued-at plus the configured lifetime. -/
theorem issued_exp_skew_cex :
    create_access_token_for_user cfg0 (some u0) "supersecret" "app:auth"
        1 0 1 =
      some (Token.signed
        { aud := some (.jstr "app:auth")
          iat := some (.jnum 0)
          exp := some (.jnum 61)
          sub := some (.jstr "a@example.com") }
        "supersecret" "HS256") ∧
    (61 : Int) ≠ 0 + 60 * 1 :=
  ⟨rfl, by decide⟩

/-- C5 amended: for every valid user record and configuration, the signed
claim set has audience equal to the configured audience, subject equal to
the user's email, issued-at equal to the first clock reading, and expiry
equal to the second clock reading plus the configured lifetime — which is
issued-at plus the lifetime exactly when the two `datetime.utcnow()`
readings coincide. -/
theorem issued_claims_shape (settings : Settings) (u : UserInDB)
    (sk aud : String) (m t1 t2 : Int) :
    create_access_token_for_user settings (some u) sk aud m t1 t2 =
      some (Token.signed
        { aud := some (.jstr aud)
          iat := some (.jnum t1)
          exp := some (.jnum (t2 + 60 * m))
          sub := some (.jstr u.email) }
        sk settings.JWT_ALGORITHM) :=
  rfl

/-! ## Claims about token validation -/

/-- C9: the `secret_key` parameter of `get_email_from_token` does not
influence its result — decoding always uses the globally configured
`settings.SECRET_KEY` (line 99), never the supplied parameter. -/
theorem secret_key_param_ignored (settings : Settings) (now : Int)
    (tok : Token) (sk1 sk2 : String) :
    get_email_from_token settings now tok sk1 =
      get_email_from_token settings now tok sk2 :=
  rfl

/-- C1: a token issued for a user with the configured secret key and
audience and a positive lifetime validates successfully, at any wall-clock
time before its expiry, to the user's email — whatever value is passed for
the ignored `secret_key` parameter of `get_email_from_token`. -/
theorem token_roundtrip_subject (settings : Settings) (u : UserInDB)
    (m t1 t2 now : Int) (sk2 : String) (tok : Token) (hm : 0 < m)
    (hnow : now < t2 + 60 * m)
    (htok : create_access_token_for_user settings (some u)
      settings.SECRET_KEY settings.JWT_AUDIENCE m t1 t2 = some tok) :
    get_email_from_token settings now tok sk2 = .ok u.email := by
  simp only [create_access_token_for_user, jwt_encode,
    Option.some.injEq] at htok
  subst htok
  simp only [get_email_from_token, jwt_decode, JWTPayload.validate]
  rw [if_neg (by simp), if_neg (by simp)]
  rw [if_neg (by omega), if_neg (by simp)]

/-- Witness for C1: the token issued for `u0` under `cfg0` with lifetime 1
minute at time 0 validates at time 30 to `"a@example.com"`, even with a
different `secret_key` argument. -/
theorem token_roundtrip_subject_witness :
    get_email_from_token cfg0 30 tok0 "otherkey" =
      .ok "a@example.com" :=
  token_roundtrip_subject cfg0 u0 1 0 0 30 "otherkey" tok0 (by decide)
    (by decide) rfl

set_option maxHeartbeats 1000000

/-- C3: `get_email_from_token` fails, and then with exactly the single
uniform `couldNotValidate` 401 failure (no underlying cause, no library
error type), if and only if the token has an invalid signature (wrong key
or algorithm, or no parse at all), a string audience different from the
configured one, a numeric expiry at or before the current time, or claim
fields failing schema validation. -/
theorem validate_failure_iff (settings : Settings) (now : Int)
    (tok : Token) (sk : String) (e : HTTPError) :
    get_email_from_token settings now tok sk = .error e ↔
      (e = couldNotValidate ∧
        (¬ token_sig_ok settings tok ∨
         token_audience_mismatch settings tok ∨
         token_expired now tok ∨
         token_schema_bad tok)) := by
  cases tok with
  | malformed raw =>
    simp [get_email_from_token, jwt_decode, token_sig_ok,
      token_audience_mismatch, token_expired, token_schema_bad, eq_comm]
  | signed claims k alg =>
    obtain ⟨caud, ciat, cexp, csub⟩ := claims
    simp only [get_email_from_token, jwt_decode, token_sig_ok,
      token_audience_mismatch, token_expired, token_schema_bad,
      JWTPayload.validate]
    by_cases halg : alg = settings.JWT_ALGORITHM
    · by_cases hk : k = settings.SECRET_KEY
      · subst halg
        subst hk
        rw [if_neg (by simp), if_neg (by simp)]
        rcases ciat with _ | (si | i) <;>
          rcases cexp with _ | (se | ex) <;>
            rcases caud with _ | (a | na) <;>
              rcases csub with _ | (ss | ns)
        all_goals dsimp only
        all_goals (try split_ifs)
        all_goals simp_all [eq_comm]
      · rw [if_neg (by simp [halg]), if_pos (by simp [hk])]
        simp [hk, eq_comm]
    · rw [if_pos (by simp [halg])]
      simp [halg, eq_comm]

/-- Witness for C3: the already-expired token issued with lifetime -1
minute at time 0 (`tokExpired0`) fails validation at time 0 with the
uniform failure. -/
theorem validate_failure_iff_witness :
    get_email_from_token cfg0 0 tokExpired0 "supersecret" =
      .error couldNotValidate :=
  (validate_failure_iff cfg0 0 tokExpired0 "supersecret"
    couldNotValidate).mpr ⟨rfl, by decide⟩

/-! ## Claim about authentication orchestration -/

/-- C8: a call of `authenticate_user` with an email the storage
collaborator does not know, and a call with a known email but a password
failing verification, both fail with the very same `authUnsuccessful`
error value — equal in every observable field, so the signal does not
distinguish "no such user" from "wrong password". -/
theorem auth_failure_uniform (settings : Settings)
    (lookup : String → Option UserInDB) (e1 e2 p1 p2 : String)
    (u : UserInDB) (t1 t2 t1' t2' : Int)
    (h1 : lookup e1 = none) (h2 : lookup e2 = some u)
    (h3 : verify_password p2 u.salt u.password = .ok false) :
    authenticate_user settings lookup e1 p1 t1 t2 =
        .failure authUnsuccessful ∧
      authenticate_user settings lookup e2 p2 t1' t2' =
        .failure authUnsuccessful := by
  constructor
  · simp [authenticate_user, h1]
  · simp [authenticate_user, h2, h3]

/-- Witness for C8: under `lookup0` (which knows only
`u0 = b@example.com`), authenticating `a@example.com` (unknown email) and
authenticating `b@example.com` with the wrong password yield the same
failure. -/
theorem auth_failure_uniform_witness :
    authenticate_user cfg0 lookup0 "a@example.com" "anything" 0 0 =
        .failure authUnsuccessful ∧
      authenticate_user cfg0 lookup0 "b@example.com" "wrongpw" 0 0 =
        .failure authUnsuccessful :=
  auth_failure_uniform cfg0 lookup0 "a@example.com" "b@example.com"
    "anything" "wrongpw" u0 0 0 0 0 rfl rfl rfl
